import Mathlib

/-!
Shallow embedding of the WHOOP MCP server's token-management and API-access
core (src/auth_manager.py and src/whoop_client.py), with theorems checking
the natural-language specification against the code.

Modelling conventions:
* Timestamps are `Int` seconds (Python `datetime` values, with
  `fromisoformat`/`isoformat` abstracted by `CryptoEnv.parseTime` /
  `CryptoEnv.formatTime`); `timedelta(minutes=5)` is `300`,
  `timedelta(seconds=e)` is `e`.
* The Fernet cipher and JSON parsing are abstracted by `CryptoEnv`:
  `decrypt` returns `none` where Python raises, mirroring
  `_decrypt_data` / `cipher_suite.decrypt` failures.
* The token file on disk is `Option StoredFile`: `none` means the file does
  not exist.  The two on-disk encodings handled by `load_tokens`
  (whole-file Fernet ciphertext detected by the `gAAAAA` marker, and the
  legacy JSON envelope with per-field ciphertext) are the two constructors
  of `StoredFile`.
* Network responses (token refresh, upstream API calls) are oracles passed
  in as explicit arguments, since the code's behaviour is a pure function
  of the response it receives.
-/

namespace WhoopMCP

/-- A decrypted token record, i.e. the dict `load_tokens` returns.
`expires_at`/`created_at` are ISO strings as stored; `timestamp` and
`expires_in` model the alternative fields `get_token_info` probes for. -/
structure TokenRecord where
  access_token : String
  refresh_token : String
  token_type : String
  expires_at : Option String
  created_at : Option String
  timestamp : Option Int
  expires_in : Option Int
deriving Repr, DecidableEq

/-- The on-disk token file.  `binary` is the new whole-file Fernet format
(content starts with `gAAAAA`); `jsonEnvelope` is the legacy JSON format
with per-field ciphertext for the two token fields. -/
inductive StoredFile where
  | binary (ciphertext : String)
  | jsonEnvelope (access_token refresh_token token_type expires_at created_at : String)
deriving Repr, DecidableEq

/-- Abstraction of the Fernet cipher, JSON parsing of the binary-format
payload, and ISO-8601 time conversion.  `decrypt s = none` models a raised
`InvalidToken`; `parseTime s = none` models `datetime.fromisoformat`
raising; `parseTokens s = none` models `json.loads` raising. -/
structure CryptoEnv where
  encrypt : String → String
  decrypt : String → Option String
  parseTokens : String → Option TokenRecord
  parseTime : String → Option Int
  formatTime : Int → String

/-- The raw token dict received from a token exchange or refresh response
(`access_token` is accessed with `[]`, the rest with `.get` defaults). -/
structure RawTokens where
  access_token : String
  refresh_token : Option String
  token_type : Option String
  expires_in : Option Int
deriving Repr, DecidableEq

/-- `TokenManager.save_tokens`: computes `expires_at = now + expires_in`
(default 3600), encrypts the two token fields, and writes the JSON
envelope `{access_token, refresh_token, token_type, expires_at,
created_at}`. -/
def save_tokens (env : CryptoEnv) (now : Int) (tokens : RawTokens) : StoredFile :=
  let expires_in := tokens.expires_in.getD 3600
  let expires_at := now + expires_in
  StoredFile.jsonEnvelope
    (env.encrypt tokens.access_token)
    (env.encrypt (tokens.refresh_token.getD ""))
    (tokens.token_type.getD "Bearer")
    (env.formatTime expires_at)
    (env.formatTime now)

/-- `TokenManager.load_tokens`: `none` when the file does not exist; for the
binary format, decrypt the whole file and parse it as JSON; for the legacy
envelope, decrypt the two token fields.  Any exception inside the `try`
block (decryption failure, JSON parse failure) is caught and converted to
`None`, which this model renders as `none`. -/
def load_tokens (env : CryptoEnv) : Option StoredFile → Option TokenRecord
  | none => none
  | some (StoredFile.binary c) =>
    match env.decrypt c with
    | some s => env.parseTokens s
    | none => none
  | some (StoredFile.jsonEnvelope a r tt ea ca) =>
    match env.decrypt a, env.decrypt r with
    | some a', some r' =>
      some { access_token := a', refresh_token := r', token_type := tt,
             expires_at := some ea, created_at := some ca,
             timestamp := none, expires_in := none }
    | _, _ => none

/-- `TokenManager.is_token_expired`: parse `expires_at` and test
`now + 5 minutes >= expires_at`; any exception (missing field, unparsable
timestamp) yields `True`. -/
def is_token_expired (env : CryptoEnv) (now : Int) (tokens : TokenRecord) : Bool :=
  match tokens.expires_at with
  | none => true
  | some s =>
    match env.parseTime s with
    | none => true
    | some expires_at => decide (now + 300 ≥ expires_at)

/-- Outcome of the POST to the refresh endpoint: an HTTP response with a
status code and a parsed body (`success` flag, token payload, error
message), or a raised exception (network failure etc.). -/
inductive RefreshResponse where
  | response (status : Int) (success : Bool) (tokens : RawTokens) (error : Option String)
  | exception
deriving Repr

/-- `TokenManager.refresh_tokens`: on a 200 response whose body has
`success` set, save the new tokens and return them; on any other status,
an unsuccessful body, or an exception, return `None` and leave the file
alone.  Returns (result, token file after the call). -/
def refresh_tokens (env : CryptoEnv) (now : Int) (resp : RefreshResponse)
    (file : Option StoredFile) : Option RawTokens × Option StoredFile :=
  match resp with
  | RefreshResponse.exception => (none, file)
  | RefreshResponse.response status success tokens _err =>
    if status = 200 then
      if success then (some tokens, some (save_tokens env now tokens))
      else (none, file)
    else (none, file)

/-- `TokenManager.get_valid_access_token`: load the stored tokens; absence
propagates as `none`; a non-expired record's access token is returned
directly; otherwise a refresh is attempted and its access token (or
`none` on failure) is returned.  Returns (result, token file after the
call). -/
def get_valid_access_token (env : CryptoEnv) (now : Int) (resp : RefreshResponse)
    (file : Option StoredFile) : Option String × Option StoredFile :=
  match load_tokens env file with
  | none => (none, file)
  | some tokens =>
    if is_token_expired env now tokens = false then
      (some tokens.access_token, file)
    else
      match refresh_tokens env now resp file with
      | (some newTokens, file') => (some newTokens.access_token, file')
      | (none, file') => (none, file')

/-- `TokenManager.clear_tokens`: remove the stored token file (idempotent). -/
def clear_tokens (_file : Option StoredFile) : Option StoredFile := none

/-- Result of `TokenManager.get_token_info`: the `{'status': 'no_tokens'}`
dict, a full info dict, or an uncaught exception (`fromisoformat` raising
on an unparsable `expires_at`, which `get_token_info` does not catch). -/
inductive TokenInfoResult where
  | noTokens
  | info (status : String) (expires_at : String) (created_at : String)
      (token_type : String) (has_refresh_token : Bool)
  | parseError
deriving Repr, DecidableEq

/-- `TokenManager.get_token_info`: classifies the record using the plain
comparison `datetime.now() > expires_at` (no buffer), preferring the
`expires_at` field, then `timestamp + expires_in`, then defaulting to one
hour from now. -/
def get_token_info (env : CryptoEnv) (now : Int) (file : Option StoredFile) :
    TokenInfoResult :=
  match load_tokens env file with
  | none => TokenInfoResult.noTokens
  | some tokens =>
    let mk : Int → TokenInfoResult := fun expires_at =>
      TokenInfoResult.info
        (if now > expires_at then "expired" else "valid")
        (env.formatTime expires_at)
        (tokens.created_at.getD (env.formatTime now))
        tokens.token_type
        (tokens.refresh_token != "")
    match tokens.expires_at with
    | some s =>
      match env.parseTime s with
      | some t => mk t
      | none => TokenInfoResult.parseError
    | none =>
      match tokens.timestamp, tokens.expires_in with
      | some ts, some ei => mk (ts + ei)
      | _, _ => mk (now + 3600)

/-- The status field of a `get_token_info` result, when it is a full info
dict. -/
def TokenInfoResult.statusOf : TokenInfoResult → Option String
  | TokenInfoResult.info st _ _ _ _ => some st
  | _ => none

/-- Timestamp strings the concrete test environments can parse (a small
ISO-8601 stand-in sufficient for closed-input evaluation). -/
def testTimes : List (String × Int) :=
  [("0", 0), ("100", 100), ("200", 200), ("299", 299), ("300", 300),
   ("301", 301), ("500", 500), ("1000", 1000), ("10000", 10000)]

/-- A concrete `CryptoEnv` for evaluating the model on closed inputs:
identity cipher, table-driven timestamp parsing. -/
def idCrypto : CryptoEnv where
  encrypt := fun s => s
  decrypt := fun s => some s
  parseTokens := fun _ => none
  parseTime := fun s => testTimes.lookup s
  formatTime := fun t => toString t

/-- A `CryptoEnv` whose key cannot decrypt anything (key rotated / file
corrupted): every `decrypt` raises, modelled as `none`. -/
def badKeyCrypto : CryptoEnv where
  encrypt := fun s => s
  decrypt := fun _ => none
  parseTokens := fun _ => none
  parseTime := fun s => testTimes.lookup s
  formatTime := fun t => toString t

/-! ## API access layer (`src/whoop_client.py`) -/

/-- `config.CACHE_DURATION`: cache TTL in seconds. -/
def CACHE_DURATION : Int := 300

/-- `config.MAX_REQUESTS_PER_MINUTE`. -/
def MAX_REQUESTS_PER_MINUTE : Nat := 100

/-- The rate-window fields of `WhoopClient`: `request_count` and
`request_window_start`. -/
structure RateState where
  request_count : Nat
  request_window_start : Int
deriving Repr, DecidableEq

/-- `WhoopClient._check_rate_limit`, parameterized by the configured
ceiling: reset the counter when at least 60 seconds have elapsed since
the window start, then either reject (`false`, the raised exception) or
count the request.  Returns (accepted?, state after the call) — note the
window reset is a mutation that persists even when the request is then
rejected. -/
def check_rate_limit (maxRequests : Nat) (now : Int) (st : RateState) :
    Bool × RateState :=
  let st1 := if now - st.request_window_start ≥ 60 then
               { request_count := 0, request_window_start := now }
             else st
  if st1.request_count ≥ maxRequests then (false, st1)
  else (true, { st1 with request_count := st1.request_count + 1 })

/-- Runs `n` consecutive `_check_rate_limit` calls at the same timestamp,
keeping only the final state (for reasoning about request sequences
inside one window). -/
def run_requests (maxRequests : Nat) (now : Int) : Nat → RateState → RateState
  | 0, st => st
  | n + 1, st => run_requests maxRequests now n (check_rate_limit maxRequests now st).2

/-- A JSON-serializable query-parameter value (`limit`, `start`, `end`). -/
inductive JsonVal where
  | str (s : String)
  | num (n : Int)
  | bool (b : Bool)
  | null
deriving Repr, DecidableEq

/-- Rendering of one JSON value as `json.dumps` does (string escaping not
modelled; parameter values in this client are dates and small integers). -/
def renderJsonVal : JsonVal → String
  | JsonVal.str s => "\"" ++ s ++ "\""
  | JsonVal.num n => toString n
  | JsonVal.bool b => if b then "true" else "false"
  | JsonVal.null => "null"

/-- The key order used by `json.dumps(params, sort_keys=True)`. -/
def paramsLe (a b : String × JsonVal) : Bool := a.1 ≤ b.1

/-- `json.dumps(params, sort_keys=True)`: serialize the dict entries in
sorted key order with the default `", "` / `": "` separators.  A Python
dict is modelled as an association list with distinct keys. -/
def dumpsSorted (params : List (String × JsonVal)) : String :=
  let sorted := params.mergeSort paramsLe
  "\x7b" ++ String.intercalate ", "
    (sorted.map (fun p => "\"" ++ p.1 ++ "\": " ++ renderJsonVal p.2)) ++ "\x7d"

/-- `WhoopClient._get_cache_key`: `endpoint` alone when `params` is falsy
(empty or absent), else `f"{endpoint}:{json.dumps(params, sort_keys=True)}"`. -/
def get_cache_key (endpoint : String) (params : List (String × JsonVal)) : String :=
  match params with
  | [] => endpoint
  | _ => endpoint ++ ":" ++ dumpsSorted params

/-- One value of `self.cache`: the response payload and the `cached_at`
timestamp (stored as an ISO string in Python and parsed back on lookup;
modelled directly as the instant). -/
structure CacheEntry (α : Type) where
  data : α
  cached_at : Int
deriving Repr, DecidableEq

/-- The in-memory cache dict, modelled as an association list with
distinct keys (payload type `α` is the parsed JSON response body). -/
abbrev Cache (α : Type) := List (String × CacheEntry α)

/-- Removal of a key from the cache dict (`del self.cache[cache_key]`). -/
def cacheErase {α : Type} (key : String) (c : Cache α) : Cache α :=
  c.filter (fun p => p.1 != key)

/-- `WhoopClient._save_to_cache`: `self.cache[cache_key] = {'data': data,
'cached_at': now}` — dict assignment, i.e. overwrite-or-add. -/
def save_to_cache {α : Type} (now : Int) (key : String) (data : α) (c : Cache α) :
    Cache α :=
  (key, { data := data, cached_at := now }) :: cacheErase key c

/-- `WhoopClient._get_from_cache`: return the stored payload when the entry
is younger than `CACHE_DURATION`; delete the entry and return `None` when
it has reached the TTL; `None` on a missing key.  Returns (result, cache
after the call). -/
def get_from_cache {α : Type} (now : Int) (key : String) (c : Cache α) :
    Option α × Cache α :=
  match c.lookup key with
  | some e =>
    if now - e.cached_at < CACHE_DURATION then (some e.data, c)
    else (none, cacheErase key c)
  | none => (none, c)

/-- Outcome of the upstream GET: a response with a status code, parsed
body (meaningful on 200) and text, a timeout, or another transport
exception. -/
inductive HttpOutcome (α : Type) where
  | response (status : Int) (body : α) (text : String)
  | timeout
  | transportError
deriving Repr

/-- The exceptions `_make_request` raises, by branch. -/
inductive ReqError where
  | rateLimited
  | noAccessToken
  | authFailed
  | apiError (status : Int) (text : String)
  | timedOut
  | transportFailed
deriving Repr, DecidableEq

/-- The mutable state of a `WhoopClient` together with the token file its
`TokenManager` owns. -/
structure ClientState (α : Type) where
  cache : Cache α
  rate : RateState
  tokenFile : Option StoredFile
deriving Repr, DecidableEq

/-- The body of `_make_request`'s `try` block, after the rate-limit check
and cache lookup: acquire a token via `_get_headers` (raising when
`get_valid_access_token` yields nothing) and issue the GET.  On 200 the
body is cached and returned; 401 clears the stored tokens and raises;
any other status, a timeout, or a transport error raises without
touching the cache. -/
def perform_request {α : Type} (env : CryptoEnv) (now : Int)
    (refreshResp : RefreshResponse) (outcome : HttpOutcome α)
    (key : String) (s : ClientState α) : Except ReqError α × ClientState α :=
  match get_valid_access_token env now refreshResp s.tokenFile with
  | (none, tf) => (Except.error ReqError.noAccessToken, { s with tokenFile := tf })
  | (some _tok, tf) =>
    let s1 : ClientState α := { s with tokenFile := tf }
    match outcome with
    | HttpOutcome.timeout => (Except.error ReqError.timedOut, s1)
    | HttpOutcome.transportError => (Except.error ReqError.transportFailed, s1)
    | HttpOutcome.response status body text =>
      if status = 200 then
        (Except.ok body, { s1 with cache := save_to_cache now key body s1.cache })
      else if status = 401 then
        (Except.error ReqError.authFailed, { s1 with tokenFile := clear_tokens s1.tokenFile })
      else
        (Except.error (ReqError.apiError status text), s1)

/-- `WhoopClient._make_request`: rate-limit check, cache lookup (a fresh
truthy hit is returned directly; Python's `if cached_data:` treats a falsy
payload as a miss, captured by `falsy`), then the authenticated HTTP call
via `perform_request`. -/
def make_request {α : Type} (env : CryptoEnv) (maxRequests : Nat) (now : Int)
    (falsy : α → Bool) (refreshResp : RefreshResponse) (outcome : HttpOutcome α)
    (endpoint : String) (params : List (String × JsonVal))
    (st : ClientState α) : Except ReqError α × ClientState α :=
  let rl := check_rate_limit maxRequests now st.rate
  let st1 : ClientState α := { st with rate := rl.2 }
  if rl.1 = false then (Except.error ReqError.rateLimited, st1)
  else
    let key := get_cache_key endpoint params
    let looked := get_from_cache now key st1.cache
    let st2 : ClientState α := { st1 with cache := looked.2 }
    match looked.1 with
    | some d => if falsy d then perform_request env now refreshResp outcome key st2
                else (Except.ok d, st2)
    | none => perform_request env now refreshResp outcome key st2

/-! ## Helper lemmas -/

/-- Looking up a key in the cache after erasing that key yields nothing. -/
theorem lookup_cacheErase_self {α : Type} (key : String) (c : Cache α) :
    (cacheErase key c).lookup key = none := by
  induction c with
  | nil => rfl
  | cons p rest ih =>
    show (List.filter (fun q => q.1 != key) (p :: rest)).lookup key = none
    rw [List.filter_cons]
    cases hb : (p.1 == key) with
    | true =>
      have h1 : (p.1 != key) = false := by simp [bne, hb]
      rw [h1]
      simp only [Bool.false_eq_true, if_false]
      exact ih
    | false =>
      have h1 : (p.1 != key) = true := by simp [bne, hb]
      have h2 : (key == p.1) = false := by
        rw [beq_eq_false_iff_ne] at hb ⊢
        exact fun e => hb e.symm
      rw [h1]
      simp only [if_true]
      rw [List.lookup, h2]
      exact ih

/-- Erasing one key from the cache leaves lookups of other keys intact. -/
theorem lookup_cacheErase_ne {α : Type} (k key : String) (h : k ≠ key) (c : Cache α) :
    (cacheErase key c).lookup k = c.lookup k := by
  induction c with
  | nil => rfl
  | cons p rest ih =>
    show (List.filter (fun q => q.1 != key) (p :: rest)).lookup k = (p :: rest).lookup k
    rw [List.filter_cons]
    cases hb : (p.1 == key) with
    | true =>
      have h1 : (p.1 != key) = false := by simp [bne, hb]
      have h2 : (k == p.1) = false := by
        rw [beq_iff_eq] at hb
        rw [beq_eq_false_iff_ne]
        exact fun e => h (e.trans hb)
      rw [h1]
      simp only [Bool.false_eq_true, if_false]
      rw [List.lookup, h2]
      exact ih
    | false =>
      have h1 : (p.1 != key) = true := by simp [bne, hb]
      rw [h1]
      simp only [if_true]
      rw [List.lookup, List.lookup]
      cases hk : (k == p.1) with
      | true => rfl
      | false => exact ih

/-- After erasing a key, any lookup is either unchanged or empty. -/
theorem lookup_cacheErase_or {α : Type} (k key : String) (c : Cache α) :
    (cacheErase key c).lookup k = c.lookup k ∨ (cacheErase key c).lookup k = none := by
  by_cases hk : k = key
  · subst hk; exact Or.inr (lookup_cacheErase_self k c)
  · exact Or.inl (lookup_cacheErase_ne k key hk c)

/-- A cache lookup leaves the cache unchanged or erases exactly the probed
key. -/
theorem get_from_cache_snd {α : Type} (now : Int) (key : String) (c : Cache α) :
    (get_from_cache now key c).2 = c ∨
    (get_from_cache now key c).2 = cacheErase key c := by
  unfold get_from_cache
  rcases c.lookup key with _ | e
  · exact Or.inl rfl
  · by_cases h : now - e.cached_at < CACHE_DURATION
    · simp [h]
    · simp [h]

/-- The key order used by `sort_keys=True` is transitive. -/
theorem paramsLe_trans (a b c : String × JsonVal)
    (hab : paramsLe a b = true) (hbc : paramsLe b c = true) :
    paramsLe a c = true := by
  simp only [paramsLe, decide_eq_true_eq] at *
  exact le_trans hab hbc

/-- The key order used by `sort_keys=True` is total. -/
theorem paramsLe_total (a b : String × JsonVal) :
    (paramsLe a b || paramsLe b a) = true := by
  simp only [paramsLe, Bool.or_eq_true, decide_eq_true_eq]
  exact le_total a.1 b.1

/-- Sorting a parameter list with distinct keys yields a strictly
key-sorted list. -/
theorem mergeSort_sorted_strict (l : List (String × JsonVal))
    (h : (l.map Prod.fst).Nodup) :
    List.Sorted (fun a b : String × JsonVal => a.1 < b.1) (l.mergeSort paramsLe) := by
  have hle : List.Pairwise (fun a b => paramsLe a b = true) (l.mergeSort paramsLe) :=
    List.sorted_mergeSort paramsLe_trans paramsLe_total l
  have hp : (l.mergeSort paramsLe).Perm l := List.mergeSort_perm l paramsLe
  have hnd : ((l.mergeSort paramsLe).map Prod.fst).Nodup :=
    ((hp.map Prod.fst).nodup_iff).mpr h
  have hne : List.Pairwise (fun a b : String × JsonVal => a.1 ≠ b.1)
      (l.mergeSort paramsLe) := List.pairwise_map.mp hnd
  refine (hle.and hne).imp ?_
  rintro a b ⟨h1, h2⟩
  simp only [paramsLe, decide_eq_true_eq] at h1
  exact lt_of_le_of_ne h1 h2

/-- Two parameter dicts with the same bindings sort to the same list. -/
theorem mergeSort_eq_of_perm (ps qs : List (String × JsonVal))
    (hperm : ps.Perm qs) (hnodup : (ps.map Prod.fst).Nodup) :
    ps.mergeSort paramsLe = qs.mergeSort paramsLe := by
  haveI : IsAntisymm (String × JsonVal) (fun a b => a.1 < b.1) :=
    ⟨fun a b h1 h2 => absurd h1 (lt_asymm h2)⟩
  refine List.eq_of_perm_of_sorted ?_ (mergeSort_sorted_strict ps hnodup)
    (mergeSort_sorted_strict qs ?_)
  · exact (List.mergeSort_perm ps paramsLe).trans
      (hperm.trans (List.mergeSort_perm qs paramsLe).symm)
  · exact ((hperm.map Prod.fst).nodup_iff).mp hnodup

/-- One accepted `_check_rate_limit` call inside a fresh window just
increments the counter. -/
theorem check_rate_limit_fresh (maxRequests : Nat) (now : Int) (j : Nat)
    (hj : j < maxRequests) :
    check_rate_limit maxRequests now { request_count := j, request_window_start := now } =
      (true, { request_count := j + 1, request_window_start := now }) := by
  have h60 : ¬ (now - now ≥ 60) := by omega
  have hmax : ¬ (j ≥ maxRequests) := by omega
  simp [check_rate_limit, h60, hmax]

/-- Counting `k` requests inside one fresh window simply advances the
counter by `k`, as long as the ceiling is not hit. -/
theorem run_requests_fresh (maxRequests : Nat) (now : Int) :
    ∀ (k j : Nat), j + k ≤ maxRequests →
      run_requests maxRequests now k { request_count := j, request_window_start := now } =
        { request_count := j + k, request_window_start := now } := by
  intro k
  induction k with
  | zero => intro j _; simp [run_requests]
  | succ n ih =>
    intro j h
    rw [run_requests, check_rate_limit_fresh maxRequests now j (by omega)]
    have := ih (j + 1) (by omega)
    rw [this]
    congr 1
    omega

/-- When the token acquisition succeeds and the upstream answers 401,
`perform_request` raises the authentication failure and deletes the
stored credential record, leaving the cache and rate state alone. -/
theorem perform_request_401 {α : Type} (env : CryptoEnv) (now : Int)
    (refreshResp : RefreshResponse) (body : α) (text : String) (key : String)
    (s : ClientState α)
    (htok : (get_valid_access_token env now refreshResp s.tokenFile).1.isSome = true) :
    perform_request env now refreshResp (HttpOutcome.response 401 body text) key s =
      (Except.error ReqError.authFailed, { s with tokenFile := none }) := by
  rcases hg : get_valid_access_token env now refreshResp s.tokenFile with ⟨g1, g2⟩
  rw [hg] at htok
  simp only at htok
  rcases Option.isSome_iff_exists.mp htok with ⟨tok, htok'⟩
  subst htok'
  unfold perform_request
  rw [hg]
  simp [clear_tokens]

/-- When `perform_request` raises (any error branch), the cache it returns
is exactly the cache it was given. -/
theorem perform_request_error_cache {α : Type} (env : CryptoEnv) (now : Int)
    (refreshResp : RefreshResponse) (outcome : HttpOutcome α) (key : String)
    (s : ClientState α) (err : ReqError)
    (h : (perform_request env now refreshResp outcome key s).1 = Except.error err) :
    (perform_request env now refreshResp outcome key s).2.cache = s.cache := by
  unfold perform_request at h ⊢
  rcases hg : get_valid_access_token env now refreshResp s.tokenFile with ⟨g1, g2⟩
  rw [hg] at h
  cases g1 with
  | none => rfl
  | some tok =>
    cases outcome with
    | timeout => rfl
    | transportError => rfl
    | response status body text =>
      dsimp only at h ⊢
      by_cases h200 : status = 200
      · rw [if_pos h200] at h
        exact absurd h (by simp)
      · rw [if_neg h200] at h ⊢
        by_cases h401 : status = 401
        · rw [if_pos h401]
        · rw [if_neg h401]

/-! ## Claims -/

/-- C1: `get_valid_access_token` returns the stored access token when the
record is present and not expired per the 5-minute-buffer check; when the
record is expired it returns the access token obtained by the refresh;
and it returns nothing when no record exists or the refresh fails — so it
never returns an expired token. -/
theorem get_valid_access_token_spec (env : CryptoEnv) (now : Int)
    (resp : RefreshResponse) (file : Option StoredFile) :
    (∀ r : TokenRecord, load_tokens env file = some r →
      is_token_expired env now r = false →
      (get_valid_access_token env now resp file).1 = some r.access_token) ∧
    (∀ (r : TokenRecord) (t : RawTokens), load_tokens env file = some r →
      is_token_expired env now r = true →
      (refresh_tokens env now resp file).1 = some t →
      (get_valid_access_token env now resp file).1 = some t.access_token) ∧
    (load_tokens env file = none →
      (get_valid_access_token env now resp file).1 = none) ∧
    (∀ r : TokenRecord, load_tokens env file = some r →
      is_token_expired env now r = true →
      (refresh_tokens env now resp file).1 = none →
      (get_valid_access_token env now resp file).1 = none) := by
  refine ⟨?_, ?_, ?_, ?_⟩
  · intro r h1 h2
    simp [get_valid_access_token, h1, h2]
  · intro r t h1 h2 h3
    rcases hrt : refresh_tokens env now resp file with ⟨a, b⟩
    rw [hrt] at h3
    simp at h3
    simp [get_valid_access_token, h1, h2, hrt, h3]
  · intro h
    simp [get_valid_access_token, h]
  · intro r h1 h2 h3
    rcases hrt : refresh_tokens env now resp file with ⟨a, b⟩
    rw [hrt] at h3
    simp at h3
    simp [get_valid_access_token, h1, h2, hrt, h3]

/-- C1 witness: with no stored file, `get_valid_access_token` returns
nothing. -/
theorem get_valid_access_token_spec_witness :
    (get_valid_access_token idCrypto 0 RefreshResponse.exception none).1 = none :=
  (get_valid_access_token_spec idCrypto 0 RefreshResponse.exception none).2.2.1 rfl

/-- C2: a request whose upstream answer is 401 fails with the
authentication failure, deletes the persisted credential record, and any
subsequent `get_valid_access_token` call returns nothing. -/
theorem make_request_401_clears_tokens {α : Type} (env : CryptoEnv)
    (maxRequests : Nat) (now : Int) (falsy : α → Bool)
    (refreshResp : RefreshResponse) (body : α) (text : String)
    (endpoint : String) (params : List (String × JsonVal)) (st : ClientState α)
    (hrate : (check_rate_limit maxRequests now st.rate).1 = true)
    (hcache : ∀ d, (get_from_cache now (get_cache_key endpoint params) st.cache).1 = some d →
      falsy d = true)
    (htok : (get_valid_access_token env now refreshResp st.tokenFile).1.isSome = true) :
    (make_request env maxRequests now falsy refreshResp
      (HttpOutcome.response 401 body text) endpoint params st).1 =
        Except.error ReqError.authFailed ∧
    (make_request env maxRequests now falsy refreshResp
      (HttpOutcome.response 401 body text) endpoint params st).2.tokenFile = none ∧
    (∀ (env2 : CryptoEnv) (now2 : Int) (resp2 : RefreshResponse),
      (get_valid_access_token env2 now2 resp2
        (make_request env maxRequests now falsy refreshResp
          (HttpOutcome.response 401 body text) endpoint params st).2.tokenFile).1 = none) := by
  have hmr : (make_request env maxRequests now falsy refreshResp
      (HttpOutcome.response 401 body text) endpoint params st) =
      (Except.error ReqError.authFailed,
        { cache := (get_from_cache now (get_cache_key endpoint params) st.cache).2,
          rate := (check_rate_limit maxRequests now st.rate).2,
          tokenFile := none }) := by
    unfold make_request
    simp only [hrate, Bool.true_eq_false, if_false]
    rcases hlk : get_from_cache now (get_cache_key endpoint params) st.cache with ⟨o, c2⟩
    cases o with
    | none =>
      exact perform_request_401 env now refreshResp body text _ _ htok
    | some d =>
      have hf : falsy d = true := hcache d (by rw [hlk])
      simp only [hf, if_true]
      exact perform_request_401 env now refreshResp body text _ _ htok
  refine ⟨by rw [hmr], by rw [hmr], ?_⟩
  intro env2 now2 resp2
  rw [hmr]
  rfl

/-- C2 witness: a concrete 401 run fails with the authentication
failure. -/
theorem make_request_401_clears_tokens_witness :
    (make_request (α := Bool) idCrypto 100 0 (fun _ => false)
      RefreshResponse.exception (HttpOutcome.response 401 true "unauthorized")
      "/e" []
      { cache := [], rate := { request_count := 0, request_window_start := 0 },
        tokenFile := some (StoredFile.jsonEnvelope "a" "r" "Bearer" "1000" "0") }).1 =
      Except.error ReqError.authFailed :=
  (make_request_401_clears_tokens idCrypto 100 0 (fun _ => false)
    RefreshResponse.exception true "unauthorized" "/e" []
    { cache := [], rate := { request_count := 0, request_window_start := 0 },
      tokenFile := some (StoredFile.jsonEnvelope "a" "r" "Bearer" "1000" "0") }
    (by decide) (by intro d h; exact Option.noConfusion h) (by decide)).1

/-- C3 counterexample: a stored file that exists but cannot be decrypted
makes `load_tokens` return `none` — the same absence signal as a missing
file — instead of propagating a decryption error, for both on-disk
formats.  This refutes "absence is signaled only when no file exists". -/
theorem load_tokens_undecryptable_counterexample :
    ((some (StoredFile.jsonEnvelope "a" "r" "Bearer" "1000" "0") :
        Option StoredFile) ≠ none) ∧
    load_tokens badKeyCrypto
      (some (StoredFile.jsonEnvelope "a" "r" "Bearer" "1000" "0")) = none ∧
    load_tokens badKeyCrypto (some (StoredFile.binary "gAAAAAabc")) = none :=
  ⟨by decide, rfl, rfl⟩

/-- C3 (amended): `load_tokens` signals absence both when no file exists
and when the stored file cannot be decrypted; decryption failures are
caught, logged and converted to absence rather than propagated. -/
theorem load_tokens_failure_to_absence (env : CryptoEnv) :
    (load_tokens env none = none) ∧
    (∀ a r tt ea ca : String, env.decrypt a = none →
      load_tokens env (some (StoredFile.jsonEnvelope a r tt ea ca)) = none) ∧
    (∀ c : String, env.decrypt c = none →
      load_tokens env (some (StoredFile.binary c)) = none) := by
  refine ⟨rfl, ?_, ?_⟩
  · intro a r tt ea ca h
    simp [load_tokens, h]
  · intro c h
    simp [load_tokens, h]

/-- C3 witness: the amended behaviour at a concrete undecryptable file. -/
theorem load_tokens_failure_to_absence_witness :
    load_tokens badKeyCrypto
      (some (StoredFile.jsonEnvelope "a" "r" "Bearer" "1000" "0")) = none :=
  (load_tokens_failure_to_absence badKeyCrypto).2.1 "a" "r" "Bearer" "1000" "0" rfl

/-- C4 counterexample: a record with 299 seconds (4:59) remaining is
reported expired (`now + 300 ≥ expires_at` holds), refuting the claim's
"false when 4:59 … remain". -/
theorem is_token_expired_at_459_counterexample :
    is_token_expired idCrypto 0
      { access_token := "a", refresh_token := "r", token_type := "Bearer",
        expires_at := some "299", created_at := none, timestamp := none,
        expires_in := none } = true := by decide

/-- C4 (amended): for a record with a parsable `expires_at`,
`is_token_expired` is true exactly when `now + 300 ≥ expires_at` — true
when exactly 5:00 or less (including 4:59) remains, false when strictly
more than 5 minutes remain. -/
theorem is_token_expired_iff (env : CryptoEnv) (now : Int) (r : TokenRecord)
    (s : String) (ea : Int) (hs : r.expires_at = some s)
    (hp : env.parseTime s = some ea) :
    is_token_expired env now r = true ↔ now + 300 ≥ ea := by
  simp [is_token_expired, hs, hp]

/-- C4 witness: the boundary at exactly 5:00 remaining is expired. -/
theorem is_token_expired_iff_witness :
    is_token_expired idCrypto 0
      { access_token := "a", refresh_token := "r", token_type := "Bearer",
        expires_at := some "300", created_at := none, timestamp := none,
        expires_in := none } = true :=
  (is_token_expired_iff idCrypto 0
    { access_token := "a", refresh_token := "r", token_type := "Bearer",
      expires_at := some "300", created_at := none, timestamp := none,
      expires_in := none } "300" 300 rfl rfl).mpr (by omega)

/-- C5: a token response saved with `save_tokens` and read back with
`load_tokens` yields the original plaintext `access_token` and
`refresh_token`, and `token_type`, `expires_at`, `created_at` exactly as
stored. -/
theorem save_load_roundtrip (env : CryptoEnv) (now : Int) (raw : RawTokens)
    (rt : String) (hdec : ∀ s, env.decrypt (env.encrypt s) = some s)
    (hrt : raw.refresh_token = some rt) :
    load_tokens env (some (save_tokens env now raw)) =
      some { access_token := raw.access_token, refresh_token := rt,
             token_type := raw.token_type.getD "Bearer",
             expires_at := some (env.formatTime (now + raw.expires_in.getD 3600)),
             created_at := some (env.formatTime now),
             timestamp := none, expires_in := none } := by
  simp [load_tokens, save_tokens, hdec, hrt]

/-- C5 witness: the round-trip at a concrete token response. -/
theorem save_load_roundtrip_witness :
    load_tokens idCrypto (some (save_tokens idCrypto 0
      { access_token := "A", refresh_token := some "R",
        token_type := some "Bearer", expires_in := some 3600 })) =
      some { access_token := "A", refresh_token := "R", token_type := "Bearer",
             expires_at := some (idCrypto.formatTime (0 + 3600)),
             created_at := some (idCrypto.formatTime 0),
             timestamp := none, expires_in := none } :=
  save_load_roundtrip idCrypto 0
    { access_token := "A", refresh_token := some "R",
      token_type := some "Bearer", expires_in := some 3600 } "R"
    (fun _ => rfl) rfl

/-- C6: fixed-window rate limiter — when at least 60 seconds have elapsed
since `request_window_start` the call behaves as if the counter were
reset to 0 with the window restarted at `now`; inside one window with
ceiling `N` the first `N` requests are accepted, the `N+1`-th is
rejected without being counted, and the first request after a window
rollover is accepted. -/
theorem rate_limiter_window (N : Nat) (hN : 1 ≤ N) (now : Int) :
    (∀ st : RateState, now - st.request_window_start ≥ 60 →
      check_rate_limit N now st =
        check_rate_limit N now { request_count := 0, request_window_start := now }) ∧
    (∀ k : Nat, k < N →
      (check_rate_limit N now (run_requests N now k
        { request_count := 0, request_window_start := now })).1 = true) ∧
    ((check_rate_limit N now (run_requests N now N
        { request_count := 0, request_window_start := now })).1 = false ∧
      (check_rate_limit N now (run_requests N now N
        { request_count := 0, request_window_start := now })).2.request_count = N) ∧
    (check_rate_limit N (now + 60) (run_requests N now N
        { request_count := 0, request_window_start := now })).1 = true := by
  have hrunN' := run_requests_fresh N now N 0 (by omega)
  have hrunN : run_requests N now N { request_count := 0, request_window_start := now } =
      { request_count := N, request_window_start := now } := by
    simpa using hrunN'
  refine ⟨?_, ?_, ?_, ?_⟩
  · intro st h
    have h2 : ¬ (now - now ≥ 60) := by omega
    simp [check_rate_limit, h, h2]
  · intro k hk
    have hrun := run_requests_fresh N now k 0 (by omega)
    rw [hrun, Nat.zero_add]
    rw [check_rate_limit_fresh N now k hk]
  · rw [hrunN]
    have h60 : ¬ (now - now ≥ 60) := by omega
    constructor
    · simp [check_rate_limit, h60]
    · simp [check_rate_limit, h60]
  · rw [hrunN]
    have h60 : (now + 60 - now ≥ 60) := by omega
    have hmax : ¬ ((0 : Nat) ≥ N) := by omega
    simp [check_rate_limit, h60, hmax]

/-- C6 witness: with ceiling 1, the second request in the window is
rejected. -/
theorem rate_limiter_window_witness :
    (check_rate_limit 1 0 (run_requests 1 0 1
      { request_count := 0, request_window_start := 0 })).1 = false :=
  (rate_limiter_window 1 (by decide) 0).2.2.1.1

/-- C7: an entry whose age has reached the 300-second TTL is never
returned and is removed during the lookup; an entry younger than the TTL
is returned unchanged along with the unchanged cache; and a freshly saved
payload is returned identically. -/
theorem cache_ttl_spec {α : Type} (now : Int) (key : String) (c : Cache α)
    (e : CacheEntry α) (h : c.lookup key = some e) :
    (now - e.cached_at ≥ CACHE_DURATION →
      (get_from_cache now key c).1 = none ∧
      ((get_from_cache now key c).2).lookup key = none) ∧
    (now - e.cached_at < CACHE_DURATION →
      (get_from_cache now key c).1 = some e.data ∧
      (get_from_cache now key c).2 = c) ∧
    (∀ (d : α) (t : Int), now - t < CACHE_DURATION →
      (get_from_cache now key (save_to_cache t key d c)).1 = some d) := by
  refine ⟨?_, ?_, ?_⟩
  · intro hold
    have hcond : ¬ (now - e.cached_at < CACHE_DURATION) := not_lt.mpr hold
    constructor
    · simp [get_from_cache, h, hcond]
    · simp [get_from_cache, h, hcond, lookup_cacheErase_self]
  · intro hyoung
    constructor
    · simp [get_from_cache, h, hyoung]
    · simp [get_from_cache, h, hyoung]
  · intro d t ht
    have hl : (save_to_cache t key d c).lookup key =
        some { data := d, cached_at := t } := by
      simp [save_to_cache, List.lookup]
    simp [get_from_cache, hl, ht]

/-- C7 witness: a 300-second-old entry is not returned and is evicted. -/
theorem cache_ttl_spec_witness :
    (get_from_cache 300 "k" [("k", { data := true, cached_at := 0 })]).1 = none ∧
    ((get_from_cache 300 "k" [("k", { data := true, cached_at := 0 })]).2).lookup "k" = none :=
  (cache_ttl_spec 300 "k" [("k", { data := true, cached_at := 0 })]
    { data := true, cached_at := 0 } rfl).1 (by decide)

/-- C8: the cache key is invariant under reordering of the parameter
dict: any two parameter lists with the same key-value bindings (same
bindings, keys distinct, in any order) produce the same key for the same
endpoint. -/
theorem cache_key_deterministic (endpoint : String)
    (ps qs : List (String × JsonVal)) (hperm : ps.Perm qs)
    (hnodup : (ps.map Prod.fst).Nodup) :
    get_cache_key endpoint ps = get_cache_key endpoint qs := by
  have hsort := mergeSort_eq_of_perm ps qs hperm hnodup
  cases ps with
  | nil =>
    have : qs = [] := hperm.nil_eq.symm
    subst this; rfl
  | cons p ps' =>
    cases qs with
    | nil => exact absurd hperm.symm.nil_eq (by simp)
    | cons q qs' =>
      show _ ++ ":" ++ dumpsSorted (p :: ps') = _ ++ ":" ++ dumpsSorted (q :: qs')
      rw [dumpsSorted, dumpsSorted, hsort]

/-- C8 witness: the spec's example — `{limit:5, start:"2024-01-01"}` and
`{start:"2024-01-01", limit:5}` give the same key. -/
theorem cache_key_deterministic_witness :
    get_cache_key "/activity/workout"
      [("limit", JsonVal.num 5), ("start", JsonVal.str "2024-01-01")] =
    get_cache_key "/activity/workout"
      [("start", JsonVal.str "2024-01-01"), ("limit", JsonVal.num 5)] :=
  cache_key_deterministic "/activity/workout" _ _
    (List.Perm.swap ("start", JsonVal.str "2024-01-01") ("limit", JsonVal.num 5) [])
    (by decide)

/-- C9 counterexample: a request answered with 401 does change the
in-memory cache — the expired entry under the request's key was lazily
evicted during the pre-flight lookup — refuting "the cache is left
unchanged" for non-200 requests. -/
theorem make_request_cache_changed_counterexample :
    ((make_request (α := Bool) idCrypto 100 400 (fun _ => false)
        RefreshResponse.exception (HttpOutcome.response 401 true "unauthorized")
        "/e" []
        { cache := [("/e", { data := true, cached_at := 0 })],
          rate := { request_count := 0, request_window_start := 400 },
          tokenFile := some (StoredFile.jsonEnvelope "a" "r" "Bearer" "1000" "0") }).1 =
      Except.error ReqError.authFailed) ∧
    ((make_request (α := Bool) idCrypto 100 400 (fun _ => false)
        RefreshResponse.exception (HttpOutcome.response 401 true "unauthorized")
        "/e" []
        { cache := [("/e", { data := true, cached_at := 0 })],
          rate := { request_count := 0, request_window_start := 400 },
          tokenFile := some (StoredFile.jsonEnvelope "a" "r" "Bearer" "1000" "0") }).2.cache = []) ∧
    ([("/e", { data := true, cached_at := 0 })] ≠ ([] : Cache Bool)) :=
  ⟨rfl, rfl, by decide⟩

/-- C9 (amended): a request that fails (any raised error: rate limit, no
token, 401, other status, timeout, transport failure) never creates or
updates a cache entry — every key's lookup is either unchanged or has
become absent (the latter only through lazy eviction of an expired entry
during the pre-flight cache lookup). -/
theorem make_request_cache_frame {α : Type} (env : CryptoEnv) (maxRequests : Nat)
    (now : Int) (falsy : α → Bool) (refreshResp : RefreshResponse)
    (outcome : HttpOutcome α) (endpoint : String)
    (params : List (String × JsonVal)) (st : ClientState α) (err : ReqError)
    (h : (make_request env maxRequests now falsy refreshResp outcome
      endpoint params st).1 = Except.error err) :
    ∀ k : String,
      (make_request env maxRequests now falsy refreshResp outcome
        endpoint params st).2.cache.lookup k = st.cache.lookup k ∨
      (make_request env maxRequests now falsy refreshResp outcome
        endpoint params st).2.cache.lookup k = none := by
  intro k
  have hsub : ∀ c2 : Cache α,
      c2 = st.cache ∨ c2 = cacheErase (get_cache_key endpoint params) st.cache →
      c2.lookup k = st.cache.lookup k ∨ c2.lookup k = none := by
    rintro c2 (rfl | rfl)
    · exact Or.inl rfl
    · exact lookup_cacheErase_or k (get_cache_key endpoint params) st.cache
  unfold make_request at h ⊢
  by_cases hrl : (check_rate_limit maxRequests now st.rate).1 = false
  · rw [if_pos hrl]
    exact Or.inl rfl
  · rw [if_neg hrl] at h ⊢
    dsimp only at h ⊢
    rcases hlk : get_from_cache now (get_cache_key endpoint params) st.cache with ⟨o, c2⟩
    rw [hlk] at h
    have hc2 : c2 = st.cache ∨ c2 = cacheErase (get_cache_key endpoint params) st.cache := by
      have hsnd := get_from_cache_snd now (get_cache_key endpoint params) st.cache
      rw [hlk] at hsnd
      exact hsnd
    cases o with
    | none =>
      rw [perform_request_error_cache env now refreshResp outcome _ _ err h]
      exact hsub c2 hc2
    | some d =>
      cases hf : falsy d with
      | true =>
        simp only [hf, if_true] at h ⊢
        rw [perform_request_error_cache env now refreshResp outcome _ _ err h]
        exact hsub c2 hc2
      | false =>
        simp only [hf, Bool.false_eq_true, if_false] at h
        exact absurd h (by simp)

/-- C9 witness for the amended frame condition: the evicting 401 run still
creates no entry — the probed key is simply gone. -/
theorem make_request_cache_frame_witness :
    (make_request (α := Bool) idCrypto 100 400 (fun _ => false)
        RefreshResponse.exception (HttpOutcome.response 401 true "unauthorized")
        "/e" []
        { cache := [("/e", { data := true, cached_at := 0 })],
          rate := { request_count := 0, request_window_start := 400 },
          tokenFile := some (StoredFile.jsonEnvelope "a" "r" "Bearer" "1000" "0") }).2.cache.lookup "/e" =
      ([("/e", { data := true, cached_at := 0 })] : Cache Bool).lookup "/e" ∨
    (make_request (α := Bool) idCrypto 100 400 (fun _ => false)
        RefreshResponse.exception (HttpOutcome.response 401 true "unauthorized")
        "/e" []
        { cache := [("/e", { data := true, cached_at := 0 })],
          rate := { request_count := 0, request_window_start := 400 },
          tokenFile := some (StoredFile.jsonEnvelope "a" "r" "Bearer" "1000" "0") }).2.cache.lookup "/e" =
      none :=
  make_request_cache_frame idCrypto 100 400 (fun _ => false)
    RefreshResponse.exception (HttpOutcome.response 401 true "unauthorized")
    "/e" []
    { cache := [("/e", { data := true, cached_at := 0 })],
      rate := { request_count := 0, request_window_start := 400 },
      tokenFile := some (StoredFile.jsonEnvelope "a" "r" "Bearer" "1000" "0") }
    ReqError.authFailed rfl "/e"

/-- C10: `get_token_info` classifies with the plain comparison
`now > expires_at` (no 5-minute buffer): a record expiring strictly
between `now` and `now + 300` is reported "valid" while
`is_token_expired` deems it expired. -/
theorem get_token_info_no_buffer (env : CryptoEnv) (now : Int)
    (file : Option StoredFile) (r : TokenRecord) (s : String) (ea : Int)
    (hl : load_tokens env file = some r) (hs : r.expires_at = some s)
    (hp : env.parseTime s = some ea) (h1 : now < ea) (h2 : ea < now + 300) :
    (get_token_info env now file).statusOf = some "valid" ∧
    is_token_expired env now r = true := by
  constructor
  · have hgt : ¬ (now > ea) := by omega
    simp [get_token_info, hl, hs, hp, hgt, TokenInfoResult.statusOf]
  · simp [is_token_expired, hs, hp]
    omega

/-- C10 witness: at `now = 0` a record expiring at 200 is reported
"valid" by the status summary yet expired by the buffer check. -/
theorem get_token_info_no_buffer_witness :
    (get_token_info idCrypto 0
      (some (StoredFile.jsonEnvelope "a" "r" "Bearer" "200" "0"))).statusOf =
        some "valid" ∧
    is_token_expired idCrypto 0
      { access_token := "a", refresh_token := "r", token_type := "Bearer",
        expires_at := some "200", created_at := some "0",
        timestamp := none, expires_in := none } = true :=
  get_token_info_no_buffer idCrypto 0
    (some (StoredFile.jsonEnvelope "a" "r" "Bearer" "200" "0"))
    { access_token := "a", refresh_token := "r", token_type := "Bearer",
      expires_at := some "200", created_at := some "0",
      timestamp := none, expires_in := none } "200" 200
    rfl rfl rfl (by decide) (by decide)

end WhoopMCP
